import Mathlib

/- Shallow embedding of the AI-Sales-Agent conversational orchestrator
(src/orchestrator/index.js, the enhanced variant that defines the six-stage
state machine footwearType / askGender / showingProducts / getSize /
getAddress / confirmOrder).

The per-message handler is embedded as a pure function from the stored
session-map entry, the trimmed inbound text, and the results of the external
collaborator calls (product search, inventory check, payment) to the new map
entry plus a trace of the external effects the handler issues (collaborator
calls, photos, and outbound messages identified by tag).  The generative
aiReply calls only produce message text and are folded into the message tags.
Date.now() is passed in as the `now` field of the environment. -/

namespace SalesBot

/-- JS String.prototype.toLowerCase on one character (ASCII, which is all the
tables and inputs use): add 32 to an upper-case letter code. -/
def toLowerChar (c : Char) : Char :=
  if c.toNat ≥ 65 && c.toNat ≤ 90 then Char.ofNat (c.toNat + 32) else c

/-- JS String.prototype.toLowerCase, computed structurally on the character list. -/
def toLowerStr (s : String) : String :=
  String.mk (s.data.map toLowerChar)

/-- JS String.prototype.includes needle test: is the first list a prefix of the second. -/
def isPrefixList : List Char → List Char → Bool
  | [], _ => true
  | _ :: _, [] => false
  | c :: cs, d :: ds => c == d && isPrefixList cs ds

/-- JS String.prototype.includes: does `hay` contain `needle` as a contiguous run. -/
def isInfixList : List Char → List Char → Bool
  | needle, [] => needle.isEmpty
  | needle, c :: rest => isPrefixList needle (c :: rest) || isInfixList needle rest

/-- JS `hay.includes(needle)`. -/
def containsSub (hay needle : String) : Bool :=
  isInfixList needle.data hay.data

/-- JS regex word character class \w = [A-Za-z0-9_]. -/
def isWordChar (c : Char) : Bool :=
  c.isAlphanum || c == '_'

/-- Scanner for the word-boundary anchored digit-run regexes used by the
orchestrator (/\b(\d+)\b/, /\b(\d{1,2})\b/, /\b(\d{6})\b/).  It collects, in
order, the maximal decimal-digit runs of the input that are flanked on both
sides by a word boundary (start / end of string or a non-word character).
`cur` carries the run in progress, reversed, together with the flag telling
whether the run started at a word boundary; `prevNonWord` tells whether the
previous character (outside a run) was a non-word character or absent. -/
def digitRunsAux : Option (Bool × List Char) → Bool → List Char → List String
  | cur, _, [] =>
      match cur with
      | some (startOk, run) => if startOk then [String.mk run.reverse] else []
      | none => []
  | cur, prevNonWord, c :: rest =>
      if c.isDigit then
        match cur with
        | some (startOk, run) => digitRunsAux (some (startOk, c :: run)) prevNonWord rest
        | none => digitRunsAux (some (prevNonWord, [c])) prevNonWord rest
      else
        match cur with
        | some (startOk, run) =>
            (if startOk && !(isWordChar c) then [String.mk run.reverse] else []) ++
              digitRunsAux none (!(isWordChar c)) rest
        | none => digitRunsAux none (!(isWordChar c)) rest

/-- The maximal digit runs of `s` flanked by word boundaries, in order of
occurrence.  A pattern /\b(\d{k})\b/ matches `s` exactly when this list holds
a run of length k, and its first match captures the first such run. -/
def boundedDigitRuns (s : String) : List String :=
  digitRunsAux none true s.data

/-- JS parseInt on a captured all-digit string. -/
def parseNat (s : String) : Nat :=
  s.data.foldl (fun a c => a * 10 + (c.toNat - 48)) 0

/-- Embeds text.match(/\b(\d+)\b/) followed by parseInt (showingProducts
selection).  A digit run flanked by letters, digits, or underscores never
matches because \b requires a word/non-word transition. -/
def numberMatch (text : String) : Option Nat :=
  (boundedDigitRuns text).head?.map parseNat

/-- Embeds text.match(/\b(\d{1,2})\b/) (getSize): the first word-boundary
flanked digit run of length one or two. -/
def sizeMatch (text : String) : Option String :=
  (boundedDigitRuns text).find? (fun r => r.length == 1 || r.length == 2)

/-- Embeds text.match(/\b(\d{6})\b/) (getAddress): the first word-boundary
flanked digit run of length exactly six. -/
def pincodeMatch (text : String) : Option String :=
  (boundedDigitRuns text).find? (fun r => r.length == 6)

/-- Follows the spec words, for comparison with the code: the maximal decimal
digit runs of a string, delimited only by non-digit characters or the ends of
the string (no word-boundary requirement).  "A run of exactly six decimal
digits" in the plain reading is a member of this list of length six. -/
def plainDigitRunsAux : Option (List Char) → List Char → List String
  | cur, [] =>
      match cur with
      | some run => [String.mk run.reverse]
      | none => []
  | cur, c :: rest =>
      if c.isDigit then
        match cur with
        | some run => plainDigitRunsAux (some (c :: run)) rest
        | none => plainDigitRunsAux (some [c]) rest
      else
        match cur with
        | some run => String.mk run.reverse :: plainDigitRunsAux none rest
        | none => plainDigitRunsAux none rest

/-- Follows the spec words: the maximal digit runs of `s` (flanks are
non-digits or string ends). -/
def specDigitRuns (s : String) : List String :=
  plainDigitRunsAux none s.data

/-- Follows the spec words: `s` contains a run of exactly six decimal digits. -/
def specHasSixDigitRun (s : String) : Bool :=
  (specDigitRuns s).any (fun r => r.length == 6)

/-- PRODUCT_SYNONYMS table, in the insertion order Object.entries iterates. -/
def PRODUCT_SYNONYMS : List (String × List String) :=
  [("formal", ["formal", "office", "business", "dress shoes", "oxford", "loafer"]),
   ("casual", ["casual", "everyday", "sneakers", "trainers", "walking shoes"]),
   ("sports", ["sports", "running", "athletic", "gym", "workout", "joggers"]),
   ("flipflop", ["flipflop", "flip flop", "flip-flop", "flipflops", "flip flops", "thongs"]),
   ("slipper", ["slipper", "slippers", "house shoes", "indoor"]),
   ("chappal", ["chappal", "chappals", "sandal", "sandals", "chappel"])]

/-- normalizeProductType: first canonical category whose synonym list has a
member contained in the lowercased text. -/
def normalizeProductType (text : String) : Option String :=
  let lowerText := toLowerStr text
  (PRODUCT_SYNONYMS.find? (fun e => e.2.any (fun syn => containsSub lowerText syn))).map
    (fun e => e.1)

/-- genderPatterns table of detectGender, in iteration order. -/
def GENDER_PATTERNS : List (String × List String) :=
  [("male", ["boy", "man", "male", "him", "his", "men", "guy", "gents", "gentleman"]),
   ("female", ["girl", "woman", "female", "her", "women", "ladies", "lady", "gal"]),
   ("self", ["me", "myself", "my own", "for me", "i want", "i\x27m looking"])]

/-- detectGender: first bucket with a member contained in the lowercased text;
the self bucket normalizes to unisex. -/
def detectGender (text : String) : Option String :=
  let lowerText := toLowerStr text
  (GENDER_PATTERNS.find? (fun e => e.2.any (fun p => containsSub lowerText p))).map
    (fun e => if e.1 == "self" then "unisex" else e.1)

/-- AFFIRMATIVE_PATTERNS phrase list. -/
def AFFIRMATIVE_PATTERNS : List String :=
  ["yes", "yeah", "yep", "sure", "okay", "ok", "yup", "definitely",
   "absolutely", "of course", "please", "go ahead", "sounds good"]

/-- NEGATIVE_PATTERNS phrase list. -/
def NEGATIVE_PATTERNS : List String :=
  ["no", "nope", "nah", "not", "don\x27t", "never", "neither"]

/-- isAffirmative: some affirmative phrase is a substring of the lowercased text. -/
def isAffirmative (text : String) : Bool :=
  AFFIRMATIVE_PATTERNS.any (fun p => containsSub (toLowerStr text) p)

/-- isNegative: some negative phrase is a substring of the lowercased text. -/
def isNegative (text : String) : Bool :=
  NEGATIVE_PATTERNS.any (fun p => containsSub (toLowerStr text) p)

/-- The six conversation stages of the enhanced orchestrator. -/
inductive Stage
  | footwearType
  | askGender
  | showingProducts
  | getSize
  | getAddress
  | confirmOrder
deriving DecidableEq, Repr

/-- A product record as consumed by the orchestrator (`ptype` embeds the JS
field named type). -/
structure Product where
  sku : String
  name : String
  ptype : String
  gender : String
  price : Nat
  imageUrl : String
  deliveryDays : Nat
deriving DecidableEq, Repr

/-- One per-chat session object.  Absent JS fields are `none`; the numeric
bookkeeping fields default to 0/false the way absent values behave in every
path a claim touches. -/
structure Session where
  stage : Stage
  productType : Option String := none
  gender : Option String := none
  lastProducts : Option (List Product) := none
  productOffset : Nat := 0
  hasMoreProducts : Bool := false
  shownCount : Nat := 0
  selectedProduct : Option String := none
  selectedSku : Option String := none
  selectedPrice : Option Nat := none
  size : Option String := none
  address : Option String := none
  pincode : Option String := none
deriving DecidableEq, Repr

/-- JS `v || d` on an optional string field: undefined and the empty string are falsy. -/
def orElseStr (v : Option String) (d : String) : String :=
  match v with
  | some s => if s = "" then d else s
  | none => d

/-- JS `v || d` on an optional number field: undefined and 0 are falsy. -/
def orElseNat (v : Option Nat) (d : Nat) : Nat :=
  match v with
  | some n => if n = 0 then d else n
  | none => d

/-- Tags identifying the outbound messages the handlers send (aiReply-composed
and template messages alike). -/
inductive MsgTag
  | greeting
  | clarifyType
  | askGenderPrompt
  | fetchAck
  | gotIt
  | retryGender
  | noResults
  | loadingMore
  | noMore
  | askSize
  | clarifySelection
  | retrySize
  | askAddress
  | retryAddress
  | orderSummary
  | confirmRetry
  | cancelAck
  | checkingAvailability
  | outOfStock
  | processingPayment
  | paymentFailed
  | creatingOrder
  | orderConfirmed
deriving DecidableEq, Repr

/-- External effects a handler issues, in order: collaborator calls, product
photos, and tagged outbound messages. -/
inductive Event
  | search (query : Option String) (gender : Option String) (limit offset : Nat)
  | photo (sku : String)
  | inventory (sku : String) (qty : Nat) (pincode : Option String)
  | payment (orderId : String) (amount : Nat) (method : String)
  | record (orderId : String) (items : List (String × Nat)) (address : Option String)
      (pincode : Option String)
  | msg (tag : MsgTag)
deriving DecidableEq, Repr

/-- Result shape of searchProducts as consumed by handleProductSearch. -/
structure SearchResult where
  ok : Bool
  products : List Product
  moreAvailable : Bool
deriving DecidableEq, Repr

/-- Result shape of checkInventory as consumed by processOrder. -/
structure InvResult where
  ok : Bool
  totalAvailable : Bool
  name : String
deriving DecidableEq, Repr

/-- Result shape of processPayment as consumed by processOrder. -/
structure PayResult where
  ok : Bool
  confirmation : String
deriving DecidableEq, Repr

/-- The oracle environment for one inbound message: the responses the external
collaborators would return for the (at most one) search and the (at most one)
inventory and payment call this message triggers, plus the Date.now() reading
taken at processOrder entry. -/
structure Env where
  searchRes : SearchResult
  inv : InvResult
  pay : PayResult
  now : Nat
deriving DecidableEq, Repr

/-- Outcome of one handler run: the session-map entry for the chat afterwards
(none when the entry was deleted or never created) and the ordered effect trace. -/
structure HandlerResult where
  entry : Option Session
  events : List Event
deriving DecidableEq, Repr

/-- The success test of handleProductSearch: results.ok and a non-empty page. -/
def searchOk (res : SearchResult) : Bool :=
  res.ok && !(res.products.isEmpty)

/-- The effect trace of handleProductSearch: the search call, then either one
photo per product of the page or the polite no-results message. -/
def searchEvents (q : Option String) (g : Option String) (offset : Nat)
    (res : SearchResult) : List Event :=
  Event.search q g 10 offset ::
    (if searchOk res then res.products.map (fun p => Event.photo p.sku)
     else [Event.msg MsgTag.noResults])

/-- Session effect of handleProductSearch as seen by its callers.  On success
handleProductSearch stores the page (lastProducts, productOffset,
hasMoreProducts) on the object read from the session map; each caller then
overwrites the map entry by spreading its local session object.  The local
object aliases the map entry exactly when an entry existed at dispatch, so the
page data survives into the final write only in that case.  (On an empty page
handleProductSearch writes a fresh footwearType object into the map, but every
caller clobbers that write with its own spread.) -/
def searchUpdate (aliased : Bool) (offset : Nat) (res : SearchResult)
    (s : Session) : Session :=
  if aliased && searchOk res then
    { s with lastProducts := some res.products, productOffset := offset,
             hasMoreProducts := res.moreAvailable }
  else s

/-- generation of the order identifier: the string ORD- followed by Date.now(). -/
def genOrderId (now : Nat) : String :=
  "ORD-" ++ toString now

/-- processOrder: inventory check (with the JS || fallbacks on selectedSku and
selectedPrice), then payment, then the order-confirmation step.  The
createFulfillment call of step 3 is commented out in the source, so no record
event is ever issued; the creatingOrder and orderConfirmed messages are still
sent and the session entry is deleted on success.  On inventory failure the
entry is reset to footwearType; on payment failure the entry is left as it
was. -/
def processOrder (entry : Option Session) (s : Session) (env : Env) : HandlerResult :=
  let orderId := genOrderId env.now
  let sku := orElseStr s.selectedSku "SKU-001"
  let invEvents := [Event.msg MsgTag.checkingAvailability, Event.inventory sku 1 s.pincode]
  if !env.inv.ok || !env.inv.totalAvailable then
    { entry := some { stage := Stage.footwearType },
      events := invEvents ++ [Event.msg MsgTag.outOfStock] }
  else
    let totalAmount := orElseNat s.selectedPrice 10000
    let payEvents := [Event.msg MsgTag.processingPayment,
                      Event.payment orderId totalAmount "gpay"]
    if !env.pay.ok then
      { entry := entry, events := invEvents ++ payEvents ++ [Event.msg MsgTag.paymentFailed] }
    else
      { entry := none,
        events := invEvents ++ payEvents ++
          [Event.msg MsgTag.creatingOrder, Event.msg MsgTag.orderConfirmed] }

/-- footwearType stage block of the message handler. -/
def footwearTypeStep (entry : Option Session) (s : Session) (text : String)
    (env : Env) : HandlerResult :=
  match normalizeProductType text with
  | some pt =>
      let s := { s with productType := some pt }
      match detectGender text with
      | some g =>
          let s := { s with gender := some g }
          let s := searchUpdate entry.isSome 0 env.searchRes s
          { entry := some { s with stage := Stage.showingProducts, shownCount := 3 },
            events := Event.msg MsgTag.fetchAck ::
              searchEvents (some pt) (some g) 0 env.searchRes }
      | none =>
          { entry := some { s with stage := Stage.askGender },
            events := [Event.msg MsgTag.askGenderPrompt] }
  | none =>
      { entry := entry, events := [Event.msg MsgTag.clarifyType] }

/-- askGender stage block of the message handler. -/
def askGenderStep (entry : Option Session) (s : Session) (text : String)
    (env : Env) : HandlerResult :=
  match detectGender text with
  | some g =>
      let s := { s with gender := some g }
      let s2 := searchUpdate entry.isSome 0 env.searchRes s
      { entry := some { s2 with stage := Stage.showingProducts, shownCount := 3 },
        events := Event.msg MsgTag.gotIt ::
          searchEvents s.productType (some g) 0 env.searchRes }
  | none =>
      { entry := entry, events := [Event.msg MsgTag.retryGender] }

/-- JS name.toLowerCase().split(' ')[0]. -/
def headWord (s : String) : String :=
  String.mk (s.data.takeWhile (fun c => !(c == ' ')))

/-- showingProducts stage block: the show-more branch, then selection by
1-based index (text.match(/\b(\d+)\b/)) or by case-insensitive name fragment. -/
def showingProductsStep (entry : Option Session) (s : Session)
    (text lowerText : String) (env : Env) : HandlerResult :=
  if containsSub lowerText "more" || containsSub lowerText "other" ||
     containsSub lowerText "different" || containsSub lowerText "else" then
    if s.hasMoreProducts then
      let newOffset := s.productOffset + 3
      let evs := Event.msg MsgTag.loadingMore ::
        searchEvents s.productType s.gender newOffset env.searchRes
      let s2 := searchUpdate entry.isSome newOffset env.searchRes s
      let s3 := { s2 with shownCount := s2.shownCount + 3 }
      { entry := some { s3 with stage := Stage.showingProducts }, events := evs }
    else
      { entry := entry, events := [Event.msg MsgTag.noMore] }
  else
    let sel : Option Product :=
      match numberMatch text with
      | some n =>
          match s.lastProducts with
          | some ps => if n = 0 then none else ps.get? (n - 1)
          | none => none
      | none =>
          match s.lastProducts with
          | some ps =>
              ps.find? (fun p =>
                containsSub (toLowerStr p.name) lowerText ||
                containsSub lowerText (headWord (toLowerStr p.name)))
          | none => none
    match sel with
    | some p =>
        { entry := some { s with selectedProduct := some p.name,
                                 selectedSku := some p.sku,
                                 selectedPrice := some (p.price * 100),
                                 stage := Stage.getSize },
          events := [Event.msg MsgTag.askSize] }
    | none =>
        { entry := entry, events := [Event.msg MsgTag.clarifySelection] }

/-- getSize stage block. -/
def getSizeStep (entry : Option Session) (s : Session) (text : String) : HandlerResult :=
  match sizeMatch text with
  | some sz =>
      { entry := some { s with size := some sz, stage := Stage.getAddress },
        events := [Event.msg MsgTag.askAddress] }
  | none =>
      { entry := entry, events := [Event.msg MsgTag.retrySize] }

/-- getAddress stage block: a word-boundary flanked six-digit run promotes the
session to confirmOrder, storing the run as pincode and the whole text as
address. -/
def getAddressStep (entry : Option Session) (s : Session) (text : String) : HandlerResult :=
  match pincodeMatch text with
  | some pin =>
      { entry := some { s with address := some text, pincode := some pin,
                               stage := Stage.confirmOrder },
        events := [Event.msg MsgTag.orderSummary] }
  | none =>
      { entry := entry, events := [Event.msg MsgTag.retryAddress] }

/-- confirmOrder stage block: the affirmative test runs first, then the
negative test, else a yes/no re-prompt. -/
def confirmOrderStep (entry : Option Session) (s : Session) (text : String)
    (env : Env) : HandlerResult :=
  if isAffirmative text then
    processOrder entry s env
  else if isNegative text then
    { entry := some { stage := Stage.footwearType }, events := [Event.msg MsgTag.cancelAck] }
  else
    { entry := entry, events := [Event.msg MsgTag.confirmRetry] }

/-- The main bot.on message handler: skip empty and literal /start texts, read
the session (absence is the initial footwearType), and dispatch on its stage. -/
def handleMessage (entry : Option Session) (text : String) (env : Env) : HandlerResult :=
  if text = "" ∨ text = "/start" then
    { entry := entry, events := [] }
  else
    let lowerText := toLowerStr text
    let s := entry.getD { stage := Stage.footwearType }
    match s.stage with
    | Stage.footwearType => footwearTypeStep entry s text env
    | Stage.askGender => askGenderStep entry s text env
    | Stage.showingProducts => showingProductsStep entry s text lowerText env
    | Stage.getSize => getSizeStep entry s text
    | Stage.getAddress => getAddressStep entry s text
    | Stage.confirmOrder => confirmOrderStep entry s text env

/-- The bot.onText /start handler: unconditionally resets the entry to the
initial stage and greets. -/
def handleStart (_entry : Option Session) : HandlerResult :=
  { entry := some { stage := Stage.footwearType }, events := [Event.msg MsgTag.greeting] }

/-- The session-map entries reachable for one chat: no entry at process start,
then any interleaving of /start resets and message-handler runs with arbitrary
inputs and collaborator responses. -/
inductive Reachable : Option Session → Prop
  | init : Reachable none
  | start (e : Option Session) : Reachable e → Reachable (handleStart e).entry
  | step (e : Option Session) (text : String) (env : Env) :
      Reachable e → Reachable (handleMessage e text env).entry

/-- The stages past product selection: getSize, getAddress, confirmOrder. -/
def laterStage (st : Stage) : Prop :=
  st = Stage.getSize ∨ st = Stage.getAddress ∨ st = Stage.confirmOrder

instance (st : Stage) : Decidable (laterStage st) := by
  unfold laterStage
  infer_instance

/-- Invariant: any stored session at or past getSize has selectedSku set. -/
def SkuInv : Option Session → Prop
  | none => True
  | some s => laterStage s.stage → s.selectedSku.isSome = true

instance (e : Option Session) : Decidable (SkuInv e) := by
  cases e <;> unfold SkuInv <;> infer_instance

/-- Keep only the collaborator calls of a trace (search, inventory, payment, record). -/
def isCallEvent : Event → Bool
  | Event.search _ _ _ _ => true
  | Event.inventory _ _ _ => true
  | Event.payment _ _ _ => true
  | Event.record _ _ _ _ => true
  | _ => false

def externalCalls (evs : List Event) : List Event :=
  evs.filter isCallEvent

def isRecordEvent : Event → Bool
  | Event.record _ _ _ _ => true
  | _ => false

def isPaymentEvent : Event → Bool
  | Event.payment _ _ _ => true
  | _ => false

def isInventoryEvent : Event → Bool
  | Event.inventory _ _ _ => true
  | _ => false

def countRecordCalls (evs : List Event) : Nat :=
  (evs.filter isRecordEvent).length

def countPaymentCalls (evs : List Event) : Nat :=
  (evs.filter isPaymentEvent).length

def countInventoryCalls (evs : List Event) : Nat :=
  (evs.filter isInventoryEvent).length

/-- The order identifiers carried by the payment calls of a trace. -/
def paymentOrderIds (evs : List Event) : List String :=
  evs.filterMap (fun e =>
    match e with
    | Event.payment oid _ _ => some oid
    | _ => none)

/- Concrete fixtures used by witnesses and counterexamples. -/

def demoProduct1 : Product :=
  { sku := "SKU-101", name := "Apex Runner", ptype := "sports", gender := "male",
    price := 1999, imageUrl := "img-101", deliveryDays := 3 }

def demoProduct2 : Product :=
  { sku := "SKU-102", name := "Bolt Sprint", ptype := "sports", gender := "male",
    price := 2499, imageUrl := "img-102", deliveryDays := 3 }

def demoProduct3 : Product :=
  { sku := "SKU-103", name := "Cloud Jogger", ptype := "sports", gender := "unisex",
    price := 2999, imageUrl := "img-103", deliveryDays := 4 }

def okSearch : SearchResult :=
  { ok := true, products := [demoProduct1, demoProduct2, demoProduct3], moreAvailable := false }

def emptySearch : SearchResult :=
  { ok := true, products := [], moreAvailable := false }

def invOk : InvResult := { ok := true, totalAvailable := true, name := "Apex Runner" }

def invOut : InvResult := { ok := true, totalAvailable := false, name := "" }

def payOk : PayResult := { ok := true, confirmation := "done" }

def payNo : PayResult := { ok := false, confirmation := "" }

def okEnv : Env := { searchRes := okSearch, inv := invOk, pay := payOk, now := 999 }

def emptySearchEnv : Env := { searchRes := emptySearch, inv := invOk, pay := payOk, now := 999 }

def payFailEnv : Env := { searchRes := okSearch, inv := invOk, pay := payNo, now := 999 }

def invOutEnv : Env := { searchRes := okSearch, inv := invOut, pay := payOk, now := 999 }

/-- A session that has walked the full flow up to confirmOrder. -/
def confirmSession : Session :=
  { stage := Stage.confirmOrder, productType := some "sports", gender := some "male",
    lastProducts := some [demoProduct1, demoProduct2, demoProduct3],
    productOffset := 0, hasMoreProducts := false, shownCount := 3,
    selectedProduct := some "Apex Runner", selectedSku := some "SKU-101",
    selectedPrice := some 199900, size := some "9",
    address := some "12 Park Street 560001", pincode := some "560001" }

/-- A second chat's confirmOrder session, differing from confirmSession. -/
def confirmSessionB : Session :=
  { confirmSession with
    selectedProduct := some "Bolt Sprint",
    selectedSku := some "SKU-102", selectedPrice := some 249900,
    address := some "7 Lake Road 560002", pincode := some "560002" }

/-- A session sitting in getAddress. -/
def addressSession : Session :=
  { stage := Stage.getAddress, productType := some "sports", gender := some "male",
    lastProducts := some [demoProduct1, demoProduct2, demoProduct3],
    productOffset := 0, hasMoreProducts := false, shownCount := 3,
    selectedProduct := some "Apex Runner", selectedSku := some "SKU-101",
    selectedPrice := some 199900, size := some "9" }

/-- A session sitting in showingProducts with three shown products. -/
def showingSession : Session :=
  { stage := Stage.showingProducts, productType := some "sports", gender := some "male",
    lastProducts := some [demoProduct1, demoProduct2, demoProduct3],
    productOffset := 0, hasMoreProducts := false, shownCount := 3 }

/-- The map entry after the concrete five-message demo flow reaching confirmOrder. -/
def demoChain : Option Session :=
  (handleMessage
    (handleMessage
      (handleMessage
        (handleMessage (handleStart none).entry "sports shoes for men" okEnv).entry
        "1" okEnv).entry
      "9" okEnv).entry
    "12 Park Street 560001" okEnv).entry

/-- The session value demoChain computes to. -/
def demoConfirmSession : Session :=
  { stage := Stage.confirmOrder, productType := some "sports", gender := some "male",
    lastProducts := some [demoProduct1, demoProduct2, demoProduct3],
    productOffset := 0, hasMoreProducts := false, shownCount := 3,
    selectedProduct := some "Apex Runner", selectedSku := some "SKU-101",
    selectedPrice := some 199900, size := some "9",
    address := some "12 Park Street 560001", pincode := some "560001" }

end SalesBot

namespace SalesBot

/-- An affirmative input is neither empty nor the literal /start text, so the
main handler's skip guard never fires on it. -/
theorem guard_of_affirmative {text : String} (h : isAffirmative text = true) :
    ¬(text = "" ∨ text = "/start") := by
  rintro (rfl | rfl)
  · exact absurd h (by decide)
  · exact absurd h (by decide)

/-- An input carrying a recognized category is neither empty nor /start. -/
theorem guard_of_productType {text : String} {pt : String}
    (h : normalizeProductType text = some pt) :
    ¬(text = "" ∨ text = "/start") := by
  rintro (rfl | rfl)
  · rw [show normalizeProductType "" = none from by decide] at h
    cases h
  · rw [show normalizeProductType "/start" = none from by decide] at h
    cases h

/-- searchUpdate never touches productType. -/
theorem searchUpdate_productType (a : Bool) (o : Nat) (r : SearchResult) (s : Session) :
    (searchUpdate a o r s).productType = s.productType := by
  unfold searchUpdate
  split <;> rfl

/-- searchUpdate never touches gender. -/
theorem searchUpdate_gender (a : Bool) (o : Nat) (r : SearchResult) (s : Session) :
    (searchUpdate a o r s).gender = s.gender := by
  unfold searchUpdate
  split <;> rfl

/-- searchUpdate never touches selectedSku. -/
theorem searchUpdate_selectedSku (a : Bool) (o : Nat) (r : SearchResult) (s : Session) :
    (searchUpdate a o r s).selectedSku = s.selectedSku := by
  unfold searchUpdate
  split <;> rfl

/-- Every run collected by the word-boundary scanner consists of decimal digits. -/
theorem digitRunsAux_all_digits (cs : List Char) :
    ∀ (cur : Option (Bool × List Char)) (b : Bool),
      (∀ ok run, cur = some (ok, run) → run.all Char.isDigit = true) →
      ∀ r ∈ digitRunsAux cur b cs, r.data.all Char.isDigit = true := by
  induction cs with
  | nil =>
      intro cur b hcur r hr
      cases cur with
      | none => simp [digitRunsAux] at hr
      | some p =>
          obtain ⟨ok, run⟩ := p
          simp only [digitRunsAux] at hr
          split at hr
          · simp only [List.mem_singleton] at hr
            subst hr
            have hrun := hcur ok run rfl
            simp only [List.all_eq_true] at hrun ⊢
            intro c hc
            exact hrun c (List.mem_reverse.mp hc)
          · simp at hr
  | cons c rest ih =>
      intro cur b hcur r hr
      cases cur with
      | none =>
          simp only [digitRunsAux] at hr
          split at hr
          case isTrue hdig =>
            refine ih _ _ ?_ r hr
            intro ok2 run2 heq
            injection heq with heq2
            cases heq2
            simp [hdig]
          case isFalse =>
            exact ih _ _ (by intro _ _ h; cases h) r hr
      | some p =>
          obtain ⟨ok, run⟩ := p
          simp only [digitRunsAux] at hr
          split at hr
          case isTrue hdig =>
            refine ih _ _ ?_ r hr
            intro ok2 run2 heq
            injection heq with heq2
            cases heq2
            have hrun := hcur ok run rfl
            simp [hdig, hrun]
          case isFalse =>
            rcases List.mem_append.mp hr with hleft | hright
            · split at hleft
              · simp only [List.mem_singleton] at hleft
                subst hleft
                have hrun := hcur ok run rfl
                simp only [List.all_eq_true] at hrun ⊢
                intro d hd
                exact hrun d (List.mem_reverse.mp hd)
              · simp at hleft
            · exact ih _ _ (by intro _ _ h; cases h) r hright

/-- Every run returned by boundedDigitRuns consists of decimal digits. -/
theorem boundedDigitRuns_all_digits (s : String) :
    ∀ r ∈ boundedDigitRuns s, r.data.all Char.isDigit = true := by
  unfold boundedDigitRuns
  exact digitRunsAux_all_digits s.data none true (by intro _ _ h; cases h)

/-- A successful pincode match captures a six-character all-digit string. -/
theorem pincodeMatch_six_digits {text pin : String} (h : pincodeMatch text = some pin) :
    pin.length = 6 ∧ pin.data.all Char.isDigit = true := by
  unfold pincodeMatch at h
  constructor
  · have := List.find?_some h
    simpa [beq_iff_eq] using this
  · exact boundedDigitRuns_all_digits text pin (List.mem_of_find?_eq_some h)

/-- Dispatch: a stored footwearType session goes to footwearTypeStep. -/
theorem handleMessage_footwearType (s : Session) (text : String) (env : Env)
    (hg : ¬(text = "" ∨ text = "/start")) (hs : s.stage = Stage.footwearType) :
    handleMessage (some s) text env = footwearTypeStep (some s) s text env := by
  unfold handleMessage
  rw [if_neg hg]
  simp only [Option.getD_some, hs]

/-- Dispatch: with no stored session the message is handled as footwearType on
the default object. -/
theorem handleMessage_noSession (text : String) (env : Env)
    (hg : ¬(text = "" ∨ text = "/start")) :
    handleMessage none text env =
      footwearTypeStep none { stage := Stage.footwearType } text env := by
  unfold handleMessage
  rw [if_neg hg]
  rfl

/-- Dispatch: a stored askGender session goes to askGenderStep. -/
theorem handleMessage_askGender (s : Session) (text : String) (env : Env)
    (hg : ¬(text = "" ∨ text = "/start")) (hs : s.stage = Stage.askGender) :
    handleMessage (some s) text env = askGenderStep (some s) s text env := by
  unfold handleMessage
  rw [if_neg hg]
  simp only [Option.getD_some, hs]

/-- Dispatch: a stored showingProducts session goes to showingProductsStep. -/
theorem handleMessage_showingProducts (s : Session) (text : String) (env : Env)
    (hg : ¬(text = "" ∨ text = "/start")) (hs : s.stage = Stage.showingProducts) :
    handleMessage (some s) text env =
      showingProductsStep (some s) s text (toLowerStr text) env := by
  unfold handleMessage
  rw [if_neg hg]
  simp only [Option.getD_some, hs]

/-- Dispatch: a stored getSize session goes to getSizeStep. -/
theorem handleMessage_getSize (s : Session) (text : String) (env : Env)
    (hg : ¬(text = "" ∨ text = "/start")) (hs : s.stage = Stage.getSize) :
    handleMessage (some s) text env = getSizeStep (some s) s text := by
  unfold handleMessage
  rw [if_neg hg]
  simp only [Option.getD_some, hs]

/-- Dispatch: a stored getAddress session goes to getAddressStep. -/
theorem handleMessage_getAddress (s : Session) (text : String) (env : Env)
    (hg : ¬(text = "" ∨ text = "/start")) (hs : s.stage = Stage.getAddress) :
    handleMessage (some s) text env = getAddressStep (some s) s text := by
  unfold handleMessage
  rw [if_neg hg]
  simp only [Option.getD_some, hs]

/-- Dispatch: a stored confirmOrder session goes to confirmOrderStep. -/
theorem handleMessage_confirmOrder (s : Session) (text : String) (env : Env)
    (hg : ¬(text = "" ∨ text = "/start")) (hs : s.stage = Stage.confirmOrder) :
    handleMessage (some s) text env = confirmOrderStep (some s) s text env := by
  unfold handleMessage
  rw [if_neg hg]
  simp only [Option.getD_some, hs]

/-- An affirmative confirmOrder input invokes the order pipeline. -/
theorem confirmOrderStep_affirmative (e : Option Session) (s : Session)
    (text : String) (env : Env) (haff : isAffirmative text = true) :
    confirmOrderStep e s text env = processOrder e s env := by
  unfold confirmOrderStep
  simp only [haff, if_true]

/-- processOrder when the inventory check reports failure or no stock. -/
theorem processOrder_inv_fail (e : Option Session) (s : Session) (env : Env)
    (hfail : (!env.inv.ok || !env.inv.totalAvailable) = true) :
    processOrder e s env =
      { entry := some { stage := Stage.footwearType },
        events := [Event.msg MsgTag.checkingAvailability,
                   Event.inventory (orElseStr s.selectedSku "SKU-001") 1 s.pincode,
                   Event.msg MsgTag.outOfStock] } := by
  unfold processOrder
  rw [hfail]
  rfl

/-- processOrder when inventory succeeds and payment fails. -/
theorem processOrder_pay_fail (e : Option Session) (s : Session) (env : Env)
    (hinv : env.inv.ok = true) (havail : env.inv.totalAvailable = true)
    (hpay : env.pay.ok = false) :
    processOrder e s env =
      { entry := e,
        events := [Event.msg MsgTag.checkingAvailability,
                   Event.inventory (orElseStr s.selectedSku "SKU-001") 1 s.pincode,
                   Event.msg MsgTag.processingPayment,
                   Event.payment (genOrderId env.now) (orElseNat s.selectedPrice 10000) "gpay",
                   Event.msg MsgTag.paymentFailed] } := by
  unfold processOrder
  simp only [hinv, havail, hpay, Bool.not_true, Bool.not_false, Bool.or_self, Bool.false_or,
    Bool.or_false, if_false, Bool.false_eq_true, if_true]
  rfl

/-- processOrder when inventory and payment both succeed: the fulfillment step
is commented out in the source, so the trace ends with the creatingOrder and
orderConfirmed messages and the entry is deleted. -/
theorem processOrder_success (e : Option Session) (s : Session) (env : Env)
    (hinv : env.inv.ok = true) (havail : env.inv.totalAvailable = true)
    (hpay : env.pay.ok = true) :
    processOrder e s env =
      { entry := none,
        events := [Event.msg MsgTag.checkingAvailability,
                   Event.inventory (orElseStr s.selectedSku "SKU-001") 1 s.pincode,
                   Event.msg MsgTag.processingPayment,
                   Event.payment (genOrderId env.now) (orElseNat s.selectedPrice 10000) "gpay",
                   Event.msg MsgTag.creatingOrder,
                   Event.msg MsgTag.orderConfirmed] } := by
  unfold processOrder
  simp only [hinv, havail, hpay, Bool.not_true, Bool.or_self, Bool.false_eq_true, if_false]
  rfl

/-- showingProducts selection by an in-range 1-based index. -/
theorem showingProductsStep_select (e : Option Session) (s : Session)
    (text lowerText : String) (env : Env) (n : Nat) (ps : List Product) (p : Product)
    (hmore : (containsSub lowerText "more" || containsSub lowerText "other" ||
              containsSub lowerText "different" || containsSub lowerText "else") = false)
    (hnum : numberMatch text = some n) (hn : ¬(n = 0))
    (hps : s.lastProducts = some ps) (hget : ps.get? (n - 1) = some p) :
    showingProductsStep e s text lowerText env =
      { entry := some { s with selectedProduct := some p.name, selectedSku := some p.sku,
                               selectedPrice := some (p.price * 100),
                               stage := Stage.getSize },
        events := [Event.msg MsgTag.askSize] } := by
  unfold showingProductsStep
  rw [hmore]
  simp only [Bool.false_eq_true, if_false, hnum, hps, if_neg hn, hget]

/-- showingProducts with a numeric input out of the shown range: nothing is
selected and nothing is written. -/
theorem showingProductsStep_select_fail (e : Option Session) (s : Session)
    (text lowerText : String) (env : Env) (n : Nat) (ps : List Product)
    (hmore : (containsSub lowerText "more" || containsSub lowerText "other" ||
              containsSub lowerText "different" || containsSub lowerText "else") = false)
    (hnum : numberMatch text = some n) (hn : ¬(n = 0))
    (hps : s.lastProducts = some ps) (hget : ps.get? (n - 1) = none) :
    showingProductsStep e s text lowerText env =
      { entry := e, events := [Event.msg MsgTag.clarifySelection] } := by
  unfold showingProductsStep
  rw [hmore]
  simp only [Bool.false_eq_true, if_false, hnum, hps, if_neg hn, hget]

/-- getAddress with a word-boundary six-digit run: promote to confirmOrder. -/
theorem getAddressStep_match (e : Option Session) (s : Session) (text pin : String)
    (hpin : pincodeMatch text = some pin) :
    getAddressStep e s text =
      { entry := some { s with address := some text, pincode := some pin,
                               stage := Stage.confirmOrder },
        events := [Event.msg MsgTag.orderSummary] } := by
  unfold getAddressStep
  rw [hpin]

/-- getAddress with no word-boundary six-digit run: re-prompt, no write. -/
theorem getAddressStep_nomatch (e : Option Session) (s : Session) (text : String)
    (hpin : pincodeMatch text = none) :
    getAddressStep e s text = { entry := e, events := [Event.msg MsgTag.retryAddress] } := by
  unfold getAddressStep
  rw [hpin]

/-- footwearType with both a category and a gender in the text. -/
theorem footwearTypeStep_both (e : Option Session) (s : Session) (text : String)
    (env : Env) (pt g : String)
    (hpt : normalizeProductType text = some pt) (hgd : detectGender text = some g) :
    footwearTypeStep e s text env =
      { entry := some { searchUpdate e.isSome 0 env.searchRes
            { s with productType := some pt, gender := some g } with
          stage := Stage.showingProducts, shownCount := 3 },
        events := Event.msg MsgTag.fetchAck ::
          searchEvents (some pt) (some g) 0 env.searchRes } := by
  unfold footwearTypeStep
  rw [hpt, hgd]

/-- Whatever the collaborator responses, the first external call the pipeline
issues is the inventory check with the (fallback-resolved) SKU, quantity 1,
and the session's pincode. -/
theorem processOrder_inventory_first (e : Option Session) (s : Session) (env : Env) :
    (externalCalls (processOrder e s env).events).head? =
      some (Event.inventory (orElseStr s.selectedSku "SKU-001") 1 s.pincode) := by
  unfold processOrder externalCalls
  cases hok : env.inv.ok <;> cases hav : env.inv.totalAvailable <;>
    cases hpay : env.pay.ok <;> simp [isCallEvent]

/-- The pipeline always issues the inventory call. -/
theorem processOrder_calls_inventory (e : Option Session) (s : Session) (env : Env) :
    Event.inventory (orElseStr s.selectedSku "SKU-001") 1 s.pincode ∈
      (processOrder e s env).events := by
  unfold processOrder
  cases hok : env.inv.ok <;> cases hav : env.inv.totalAvailable <;>
    cases hpay : env.pay.ok <;> simp

/-- C7: in a showingProducts session holding exactly three lastProducts, the
input 2 moves to getSize selecting the second product's SKU, while the
out-of-range input 5 leaves the stored session completely unchanged. -/
theorem c7_index_selection (s : Session) (p1 p2 p3 : Product) (env : Env)
    (hstage : s.stage = Stage.showingProducts)
    (hlp : s.lastProducts = some [p1, p2, p3]) :
    (handleMessage (some s) "2" env).entry =
      some { s with selectedProduct := some p2.name, selectedSku := some p2.sku,
                    selectedPrice := some (p2.price * 100), stage := Stage.getSize } ∧
    (handleMessage (some s) "5" env).entry = some s := by
  constructor
  · rw [handleMessage_showingProducts s "2" env (by decide) hstage,
        showingProductsStep_select (some s) s "2" (toLowerStr "2") env 2 [p1, p2, p3] p2
          (by decide) (by decide) (by decide) hlp rfl]
  · rw [handleMessage_showingProducts s "5" env (by decide) hstage,
        showingProductsStep_select_fail (some s) s "5" (toLowerStr "5") env 5 [p1, p2, p3]
          (by decide) (by decide) (by decide) hlp rfl]

/-- Witness for C7 on a concrete showingProducts session and catalog page. -/
theorem c7_witness :
    showingSession.stage = Stage.showingProducts ∧
    showingSession.lastProducts = some [demoProduct1, demoProduct2, demoProduct3] ∧
    ((handleMessage (some showingSession) "2" okEnv).entry =
      some { showingSession with
             selectedProduct := some demoProduct2.name,
             selectedSku := some demoProduct2.sku,
             selectedPrice := some (demoProduct2.price * 100), stage := Stage.getSize } ∧
     (handleMessage (some showingSession) "5" okEnv).entry = some showingSession) :=
  ⟨by decide, by decide,
   c7_index_selection showingSession demoProduct1 demoProduct2 demoProduct3 okEnv
     (by decide) (by decide)⟩

/-- C8 counterexample: the input pin560001 contains a run of exactly six
decimal digits in the plain sense, yet the getAddress handler leaves the
session unchanged in getAddress, because the word-boundary anchored pattern
rejects a digit run flanked by letters. -/
theorem c8_boundary_counterexample :
    specHasSixDigitRun "pin560001" = true ∧
    (handleMessage (some addressSession) "pin560001" okEnv).entry = some addressSession ∧
    addressSession.stage = Stage.getAddress := by
  decide

/-- C8 (amended): in getAddress an input with no word-boundary-delimited
six-digit run leaves the stored session unchanged; an input containing such a
run moves to confirmOrder, storing the first such run verbatim as pincode
(hence the pincode is always exactly six decimal digits) and the whole message
text as address. -/
theorem c8_amended_pincode (s : Session) (text : String) (env : Env)
    (hstage : s.stage = Stage.getAddress) :
    (pincodeMatch text = none → (handleMessage (some s) text env).entry = some s) ∧
    (∀ pin, pincodeMatch text = some pin →
      (handleMessage (some s) text env).entry =
        some { s with address := some text, pincode := some pin,
                      stage := Stage.confirmOrder } ∧
      pin.length = 6 ∧ pin.data.all Char.isDigit = true) := by
  by_cases hg : text = "" ∨ text = "/start"
  · constructor
    · intro _
      unfold handleMessage
      rw [if_pos hg]
    · intro pin hpin
      exfalso
      rcases hg with rfl | rfl
      · rw [show pincodeMatch "" = none from by decide] at hpin
        cases hpin
      · rw [show pincodeMatch "/start" = none from by decide] at hpin
        cases hpin
  · constructor
    · intro hpin
      rw [handleMessage_getAddress s text env hg hstage, getAddressStep_nomatch _ _ _ hpin]
    · intro pin hpin
      refine ⟨?_, pincodeMatch_six_digits hpin⟩
      rw [handleMessage_getAddress s text env hg hstage, getAddressStep_match _ _ _ _ hpin]

/-- Witness for the amended C8 on a concrete address message. -/
theorem c8_amended_witness :
    (handleMessage (some addressSession) "my house 560001" okEnv).entry =
      some { addressSession with
             address := some "my house 560001",
             pincode := some "560001", stage := Stage.confirmOrder } ∧
    String.length "560001" = 6 :=
  ⟨((c8_amended_pincode addressSession "my house 560001" okEnv (by decide)).2
      "560001" (by decide)).1,
   by decide⟩

/-- C2 (code bug): when the first search returns an empty page the polite
no-results message is sent and handleProductSearch writes a footwearType
reset, but the footwearType handler then unconditionally overwrites the entry
with stage showingProducts, so the session does not end in footwearType. -/
theorem c2_empty_search_stage_bug :
    Event.msg MsgTag.noResults ∈
      (handleMessage (some { stage := Stage.footwearType }) "formal shoes for men"
        emptySearchEnv).events ∧
    ((handleMessage (some { stage := Stage.footwearType }) "formal shoes for men"
        emptySearchEnv).entry).map Session.stage = some Stage.showingProducts := by
  decide

/-- C9 (code bug): the order identifier is the fixed prefix plus the raw
Date.now() reading, so two distinct pipeline invocations sharing a millisecond
(two different chats' sessions, same clock value) generate identical
identifiers. -/
theorem c9_order_id_collision :
    ¬(confirmSession = confirmSessionB) ∧
    paymentOrderIds (handleMessage (some confirmSession) "yes" okEnv).events = ["ORD-999"] ∧
    paymentOrderIds (handleMessage (some confirmSessionB) "yes" okEnv).events = ["ORD-999"] := by
  decide

/-- C10: the confirmOrder affirmative test is case-insensitive substring
membership checked before the negative test, so any input containing an
affirmative phrase (even inside a longer word, and even alongside a negative
phrase) invokes the order pipeline, whose first step, the availability check,
is issued. -/
theorem c10_affirmative_overrides_negative (s : Session) (text : String) (env : Env)
    (hstage : s.stage = Stage.confirmOrder) (haff : isAffirmative text = true) :
    handleMessage (some s) text env = processOrder (some s) s env ∧
    Event.inventory (orElseStr s.selectedSku "SKU-001") 1 s.pincode ∈
      (handleMessage (some s) text env).events := by
  have hg := guard_of_affirmative haff
  have hd : handleMessage (some s) text env = processOrder (some s) s env := by
    rw [handleMessage_confirmOrder s text env hg hstage,
        confirmOrderStep_affirmative _ _ _ _ haff]
  refine ⟨hd, ?_⟩
  rw [hd]
  exact processOrder_calls_inventory _ _ _

/-- Witness for C10: the input contains the negative phrases no and not yet the
pipeline runs because okay is an affirmative substring. -/
theorem c10_witness :
    isAffirmative "not okay" = true ∧ isNegative "not okay" = true ∧
    Event.inventory (orElseStr confirmSession.selectedSku "SKU-001") 1
        confirmSession.pincode ∈
      (handleMessage (some confirmSession) "not okay" okEnv).events :=
  ⟨by decide, by decide,
   (c10_affirmative_overrides_negative confirmSession "not okay" okEnv
      (by decide) (by decide)).2⟩

/-- C3: payment failure on an affirmative confirmOrder input notifies the user,
stops the pipeline (no record call, no confirmation message), and leaves the
stored session entirely unchanged so the user can retry from confirmOrder. -/
theorem c3_payment_failure_preserves_session (s : Session) (text : String) (env : Env)
    (hstage : s.stage = Stage.confirmOrder) (haff : isAffirmative text = true)
    (hinv : env.inv.ok = true) (havail : env.inv.totalAvailable = true)
    (hpay : env.pay.ok = false) :
    (handleMessage (some s) text env).entry = some s ∧
    Event.msg MsgTag.paymentFailed ∈ (handleMessage (some s) text env).events ∧
    countRecordCalls (handleMessage (some s) text env).events = 0 ∧
    Event.msg MsgTag.orderConfirmed ∉ (handleMessage (some s) text env).events := by
  have hg := guard_of_affirmative haff
  rw [handleMessage_confirmOrder s text env hg hstage,
      confirmOrderStep_affirmative _ _ _ _ haff,
      processOrder_pay_fail _ _ _ hinv havail hpay]
  refine ⟨rfl, by simp, by simp [countRecordCalls, isRecordEvent], by simp⟩

/-- Witness for C3 on the concrete confirm session with a failing payment. -/
theorem c3_witness :
    confirmSession.stage = Stage.confirmOrder ∧
    (handleMessage (some confirmSession) "yes" payFailEnv).entry = some confirmSession :=
  ⟨by decide,
   (c3_payment_failure_preserves_session confirmSession "yes" payFailEnv
      (by decide) (by decide) (by decide) (by decide) (by decide)).1⟩

/-- C4: the availability checker is always the pipeline's first external call,
with the selected SKU (set and non-empty), quantity 1, and the captured
pincode; when it reports failure or no stock the user is notified, the session
resets to footwearType, and the payment processor is never called. -/
theorem c4_inventory_first_and_gates_payment (e : Option Session) (s : Session)
    (env : Env) (k : String)
    (hsku : s.selectedSku = some k) (hk : ¬(k = "")) :
    (externalCalls (processOrder e s env).events).head? =
      some (Event.inventory k 1 s.pincode) ∧
    ((env.inv.ok = false ∨ env.inv.totalAvailable = false) →
      (processOrder e s env).entry = some { stage := Stage.footwearType } ∧
      Event.msg MsgTag.outOfStock ∈ (processOrder e s env).events ∧
      countPaymentCalls (processOrder e s env).events = 0) := by
  have hsel : orElseStr s.selectedSku "SKU-001" = k := by
    rw [hsku]
    simp [orElseStr, hk]
  constructor
  · rw [← hsel]
    exact processOrder_inventory_first e s env
  · intro hfail
    have hf : (!env.inv.ok || !env.inv.totalAvailable) = true := by
      rcases hfail with h | h <;> rw [h] <;> simp
    rw [processOrder_inv_fail _ _ _ hf]
    exact ⟨rfl, by simp, by simp [countPaymentCalls, isPaymentEvent]⟩

/-- Witness for C4 on the concrete confirm session with an out-of-stock result. -/
theorem c4_witness :
    (externalCalls (processOrder (some confirmSession) confirmSession invOutEnv).events).head? =
      some (Event.inventory "SKU-101" 1 (some "560001")) ∧
    (processOrder (some confirmSession) confirmSession invOutEnv).entry =
      some { stage := Stage.footwearType } := by
  have h := c4_inventory_first_and_gates_payment (some confirmSession) confirmSession
    invOutEnv "SKU-101" (by decide) (by decide)
  exact ⟨h.1, (h.2 (Or.inr (by decide))).1⟩

/-- C1 counterexample: the fully successful confirm flow issues no order-record
call at all (the fulfillment step is commented out in processOrder), not
exactly one, even though the user receives the success confirmation. -/
theorem c1_no_record_counterexample :
    ¬(countRecordCalls (handleMessage (some confirmSession) "yes" okEnv).events = 1) ∧
    Event.msg MsgTag.orderConfirmed ∈
      (handleMessage (some confirmSession) "yes" okEnv).events := by
  decide

/-- C1 (amended): a completed order flow issues exactly one availability call,
exactly one payment call, and zero order-record calls; the user still receives
the order-confirmation message and the session entry is cleared. -/
theorem c1_amended_no_record_call (s : Session) (text : String) (env : Env)
    (hstage : s.stage = Stage.confirmOrder) (haff : isAffirmative text = true)
    (hinv : env.inv.ok = true) (havail : env.inv.totalAvailable = true)
    (hpay : env.pay.ok = true) :
    countRecordCalls (handleMessage (some s) text env).events = 0 ∧
    countInventoryCalls (handleMessage (some s) text env).events = 1 ∧
    countPaymentCalls (handleMessage (some s) text env).events = 1 ∧
    Event.msg MsgTag.orderConfirmed ∈ (handleMessage (some s) text env).events ∧
    (handleMessage (some s) text env).entry = none := by
  have hg := guard_of_affirmative haff
  rw [handleMessage_confirmOrder s text env hg hstage,
      confirmOrderStep_affirmative _ _ _ _ haff,
      processOrder_success _ _ _ hinv havail hpay]
  refine ⟨by simp [countRecordCalls, isRecordEvent],
    by simp [countInventoryCalls, isInventoryEvent],
    by simp [countPaymentCalls, isPaymentEvent], by simp, rfl⟩

/-- Witness for the amended C1 on the concrete confirm session. -/
theorem c1_amended_witness :
    countRecordCalls (handleMessage (some confirmSession) "yes" okEnv).events = 0 ∧
    (handleMessage (some confirmSession) "yes" okEnv).entry = none := by
  have h := c1_amended_no_record_call confirmSession "yes" okEnv
    (by decide) (by decide) (by decide) (by decide) (by decide)
  exact ⟨h.1, h.2.2.2.2⟩

/-- C6: a fresh footwearType session (stored or absent) whose message mentions
both a known category synonym and a known gender synonym lands in
showingProducts in a single round trip, with the canonical productType and
gender recorded, never passing through askGender. -/
theorem c6_category_and_gender_single_trip (e : Option Session) (text : String)
    (env : Env) (pt g : String)
    (hfresh : ∀ s0, e = some s0 → s0.stage = Stage.footwearType)
    (hpt : normalizeProductType text = some pt)
    (hgd : detectGender text = some g) :
    ∃ s, (handleMessage e text env).entry = some s ∧
      s.stage = Stage.showingProducts ∧ s.productType = some pt ∧ s.gender = some g := by
  have hg := guard_of_productType hpt
  cases e with
  | none =>
      rw [handleMessage_noSession text env hg,
          footwearTypeStep_both none _ text env pt g hpt hgd]
      exact ⟨_, rfl, rfl, by simp [searchUpdate_productType], by simp [searchUpdate_gender]⟩
  | some s0 =>
      have hs0 := hfresh s0 rfl
      rw [handleMessage_footwearType s0 text env hg hs0,
          footwearTypeStep_both (some s0) _ text env pt g hpt hgd]
      exact ⟨_, rfl, rfl, by simp [searchUpdate_productType], by simp [searchUpdate_gender]⟩

/-- Witness for C6 on a concrete first message carrying category and gender. -/
theorem c6_witness :
    ∃ s, (handleMessage none "sports shoes for men" okEnv).entry = some s ∧
      s.stage = Stage.showingProducts ∧ s.productType = some "sports" ∧
      s.gender = some "male" :=
  c6_category_and_gender_single_trip none "sports shoes for men" okEnv "sports" "male"
    (by intro s0 h; cases h) (by decide) (by decide)

/-- footwearTypeStep lands only in footwearType, askGender, or showingProducts,
so it preserves the selectedSku invariant. -/
theorem skuInv_footwearTypeStep (e : Option Session) (s : Session) (text : String)
    (env : Env) (he : SkuInv e) :
    SkuInv (footwearTypeStep e s text env).entry := by
  unfold footwearTypeStep
  split
  · split
    · intro hl
      simp [laterStage] at hl
    · intro hl
      simp [laterStage] at hl
  · exact he

/-- askGenderStep preserves the selectedSku invariant. -/
theorem skuInv_askGenderStep (e : Option Session) (s : Session) (text : String)
    (env : Env) (he : SkuInv e) :
    SkuInv (askGenderStep e s text env).entry := by
  unfold askGenderStep
  split
  · intro hl
    simp [laterStage] at hl
  · exact he

/-- showingProductsStep either stays in showingProducts, leaves the entry
alone, or selects a product, setting selectedSku as it enters getSize. -/
theorem skuInv_showingProductsStep (e : Option Session) (s : Session)
    (text lowerText : String) (env : Env) (he : SkuInv e) :
    SkuInv (showingProductsStep e s text lowerText env).entry := by
  simp only [showingProductsStep]
  split
  · split
    · intro hl
      simp [laterStage] at hl
    · exact he
  · split
    · intro _
      rfl
    · exact he

/-- getSizeStep carries selectedSku forward into getAddress. -/
theorem skuInv_getSizeStep (e : Option Session) (s : Session) (text : String)
    (hsku : s.selectedSku.isSome = true) (he : SkuInv e) :
    SkuInv (getSizeStep e s text).entry := by
  unfold getSizeStep
  split
  · intro _
    exact hsku
  · exact he

/-- getAddressStep carries selectedSku forward into confirmOrder. -/
theorem skuInv_getAddressStep (e : Option Session) (s : Session) (text : String)
    (hsku : s.selectedSku.isSome = true) (he : SkuInv e) :
    SkuInv (getAddressStep e s text).entry := by
  unfold getAddressStep
  split
  · intro _
    exact hsku
  · exact he

/-- confirmOrderStep resets, clears, or preserves the entry, in every case
keeping the selectedSku invariant. -/
theorem skuInv_confirmOrderStep (e : Option Session) (s : Session) (text : String)
    (env : Env) (he : SkuInv e) :
    SkuInv (confirmOrderStep e s text env).entry := by
  unfold confirmOrderStep
  split
  · simp only [processOrder]
    split
    · intro hl
      simp [laterStage] at hl
    · split
      · exact he
      · trivial
  · split
    · intro hl
      simp [laterStage] at hl
    · exact he

/-- Every message handled from an invariant-satisfying entry yields an
invariant-satisfying entry. -/
theorem skuInv_handleMessage (e : Option Session) (text : String) (env : Env)
    (he : SkuInv e) : SkuInv (handleMessage e text env).entry := by
  by_cases hg : text = "" ∨ text = "/start"
  · unfold handleMessage
    rw [if_pos hg]
    exact he
  · cases e with
    | none =>
        rw [handleMessage_noSession text env hg]
        exact skuInv_footwearTypeStep none _ text env he
    | some s =>
        cases hst : s.stage with
        | footwearType =>
            rw [handleMessage_footwearType s text env hg hst]
            exact skuInv_footwearTypeStep _ _ _ _ he
        | askGender =>
            rw [handleMessage_askGender s text env hg hst]
            exact skuInv_askGenderStep _ _ _ _ he
        | showingProducts =>
            rw [handleMessage_showingProducts s text env hg hst]
            exact skuInv_showingProductsStep _ _ _ _ _ he
        | getSize =>
            rw [handleMessage_getSize s text env hg hst]
            exact skuInv_getSizeStep _ _ _ (he (Or.inl hst)) he
        | getAddress =>
            rw [handleMessage_getAddress s text env hg hst]
            exact skuInv_getAddressStep _ _ _ (he (Or.inr (Or.inl hst))) he
        | confirmOrder =>
            rw [handleMessage_confirmOrder s text env hg hst]
            exact skuInv_confirmOrderStep _ _ _ _ he

/-- Every reachable session-map entry satisfies the selectedSku invariant. -/
theorem skuInv_reachable (e : Option Session) (h : Reachable e) : SkuInv e := by
  induction h with
  | init => trivial
  | start e0 _ _ =>
      intro hl
      simp [handleStart, laterStage] at hl
  | step e0 text env _ ih => exact skuInv_handleMessage e0 text env ih

/-- C5: in every reachable state, a stored session sitting at confirmOrder,
the only stage from which processOrder is invoked, has selectedSku set; hence
a session with selectedSku unset never reaches payment/fulfillment. -/
theorem c5_selectedSku_set_at_confirmOrder (e : Option Session) (s : Session)
    (hr : Reachable e) (he : e = some s) (hs : s.stage = Stage.confirmOrder) :
    s.selectedSku.isSome = true := by
  have h := skuInv_reachable e hr
  rw [he] at h
  exact h (Or.inr (Or.inr hs))

/-- Witness for C5 along the concrete five-message demo flow. -/
theorem c5_witness : demoConfirmSession.selectedSku.isSome = true :=
  c5_selectedSku_set_at_confirmOrder demoChain demoConfirmSession
    (Reachable.step _ "12 Park Street 560001" okEnv
      (Reachable.step _ "9" okEnv
        (Reachable.step _ "1" okEnv
          (Reachable.step _ "sports shoes for men" okEnv
            (Reachable.start none Reachable.init)))))
    (by decide) (by decide)

end SalesBot
